import Mathlib

/-!
Shallow embedding of the simplecoin_rpc_client payout settlement engine
(`simplecoin_rpc_client/payout_manager.py`, `sc_rpc.py`, `trade_manager.py`).

Modelling conventions:
* A `Payout` row mirrors the SQLAlchemy `Payout` table of payout_manager.py.
  SQLite stores `amount` as a string that the code converts with `float`;
  amounts and balances are modelled as exact rationals `ℚ`.
* The store is the list of committed rows.  SQLAlchemy sessions are modelled
  by computing the in-memory session view as a pure transformation and
  committing it (replacing the store) exactly where the source calls
  `self.db.session.commit()`; `rollback()` keeps the committed store.
* Timestamps (`datetime.datetime.utcnow()`) are a `Nat` parameter `now`.
* The wallet RPC (`coin_rpc`) and the coordinator transport (`sc_rpc`) are
  oracles passed in as environment records; POSTs to the coordinator are
  logged by endpoint name.
* Python exceptions are modelled with `Except String`.
-/

namespace SCRPC

/-- One row of the `payouts` table (payout_manager.py, class `Payout`). -/
structure Payout where
  id : Nat
  pid : String
  user : String
  address : String
  amount : ℚ
  currency_code : String
  txid : Option String
  associated : Bool
  locked : Bool
  lock_time : Option Nat
  paid_time : Option Nat
  assoc_time : Option Nat
  pull_time : Option Nat
deriving Repr, DecidableEq

/-- The local payout store: the committed rows of the sqlite database. -/
abbrev Store := List Payout

/-- The configuration dictionary entries read by the payout manager.
`min_confirms` is an `Option` because `SCRPCClient._set_config` gives it no
default (the default 12 is registered under the distinct key
`min_tx_confirms`), so the key may be absent. -/
structure Config where
  currency_code : String
  valid_address_versions : List Int
  minimum_tx_output : ℚ
  min_confirms : Option Nat
  min_tx_confirms : Nat
deriving Repr, DecidableEq

/-- The keyword arguments handed to `SCRPCClient._set_config`; `none` models
an absent key. -/
structure Kwargs where
  currency_code : String
  valid_address_versions : Option (List Int)
  minimum_tx_output : Option ℚ
  min_confirms : Option Nat
  min_tx_confirms : Option Nat
deriving Repr, DecidableEq

/-- `SCRPCClient._set_config` (sc_rpc.py lines 65-91): builds the defaults
dict (`valid_address_versions=[]`, `min_tx_confirms=12`,
`minimum_tx_output=0.00000001`, ...) and then overrides it with the given
kwargs.  Note that the key `min_confirms` receives no default. -/
def set_config (kw : Kwargs) : Config :=
  { currency_code := kw.currency_code
    valid_address_versions := kw.valid_address_versions.getD []
    minimum_tx_output := kw.minimum_tx_output.getD (1 / 100000000)
    min_confirms := kw.min_confirms
    min_tx_confirms := kw.min_tx_confirms.getD 12 }

/-! ### pull_payouts (payout_manager.py lines 61-114) -/

/-- One 4-tuple of the coordinator's `get_payouts` response. -/
structure PullTuple where
  user : String
  address : String
  amount : ℚ
  pid : String
deriving Repr, DecidableEq

/-- Environment for `pull_payouts`: `get_bcaddress_version` as an oracle. -/
structure PullEnv where
  addrVersion : String → Option Int

/-- `get_bcaddress_version(address) in config['valid_address_versions']`
(line 86).  `get_bcaddress_version` returns `None` or an int; `None` is never
a member of the configured (integer) version list. -/
def validAddr (cfg : Config) (env : PullEnv) (a : String) : Bool :=
  match env.addrVersion a with
  | none => false
  | some v => cfg.valid_address_versions.contains v

/-- `self.db.session.query(Payout).filter_by(pid=pid).first()` (line 95),
viewed as a boolean existence check. -/
def pidExists (st : Store) (pid : String) : Bool :=
  st.any (fun r => r.pid == pid)

/-- The fresh row built at lines 101-103: a PULLED row with `pull_time` set. -/
def mkPulled (cfg : Config) (t : PullTuple) (now rowId : Nat) : Payout :=
  { id := rowId, pid := t.pid, user := t.user, address := t.address
    amount := t.amount, currency_code := cfg.currency_code
    txid := none, associated := false, locked := false
    lock_time := none, paid_time := none, assoc_time := none
    pull_time := some now }

/-- Loop state of the `for user, address, amount, pid in payouts` loop:
the session's view of the store, the next autoincrement id, and the
`new`/`repeat`/`invalid` counters. -/
structure PullSt where
  store : Store
  nextId : Nat
  fresh : Nat
  rep : Nat
  inv : Nat
deriving Repr, DecidableEq

/-- The classification loop of `pull_payouts` (lines 84-107): invalid
address → `invalid += 1`; existing pid → `repeat += 1`; otherwise
`new += 1` and (unless simulating) the row is added to the session. -/
def pullLoop (cfg : Config) (env : PullEnv) (simulate : Bool) (now : Nat) :
    List PullTuple → PullSt → PullSt
  | [], s => s
  | t :: ts, s =>
    if ¬ validAddr cfg env t.address then
      pullLoop cfg env simulate now ts { s with inv := s.inv + 1 }
    else if pidExists s.store t.pid then
      pullLoop cfg env simulate now ts { s with rep := s.rep + 1 }
    else
      pullLoop cfg env simulate now ts
        { s with fresh := s.fresh + 1
                 store := if simulate then s.store
                          else s.store ++ [mkPulled cfg t now s.nextId]
                 nextId := s.nextId + 1 }

/-- Result of `pull_payouts`: the Python return value (`None` or `True`),
the committed store, the endpoints POSTed to the coordinator, and the three
counters reported at line 111. -/
structure PullResult where
  result : Option Bool
  store : Store
  posts : List String
  fresh : Nat
  rep : Nat
  inv : Nat
deriving Repr, DecidableEq

/-- `PayoutManager.pull_payouts` (lines 61-114).  `resp = none` models the
POST raising `ConnectionError`; an empty `pids` list returns early ("No
payouts to process"); otherwise the classification loop runs and the session
is committed once at the end. -/
def pull_payouts (cfg : Config) (env : PullEnv) (resp : Option (List PullTuple))
    (st : Store) (simulate : Bool) (now nid : Nat) : PullResult :=
  match resp with
  | none => ⟨none, st, ["get_payouts"], 0, 0, 0⟩
  | some ts =>
    if ts = [] then ⟨none, st, ["get_payouts"], 0, 0, 0⟩
    else
      let s := pullLoop cfg env simulate now ts ⟨st, nid, 0, 0, 0⟩
      ⟨some true, s.store, ["get_payouts"], s.fresh, s.rep, s.inv⟩

/-! ### send_payout (payout_manager.py lines 116-263) -/

deriving instance DecidableEq for Except

/-- Wallet (`coin_rpc`) behaviour during one `send_payout` run:
whether `poke_rpc` succeeds, the balance returned by the first
`get_balance`, the outcome of `send_many` (`Except.error` models a raised
`CoinRPCException`), and the balance returned by the `get_balance` re-read
performed in the exception handler. -/
structure WalletEnv where
  pokeOk : Bool
  balance : ℚ
  sendResult : Except Unit String
  balanceAfterError : ℚ
deriving Repr, DecidableEq

/-- The `filter_by(txid=None, locked=False, currency_code=...)` predicate of
the query at lines 132-136. -/
def unpaidUnlocked (cfg : Config) (r : Payout) : Bool :=
  r.txid.isNone && !r.locked && r.currency_code == cfg.currency_code

/-- The row list returned by the query at lines 132-136. -/
def sendQuery (cfg : Config) (st : Store) : List Payout :=
  st.filter (unpaidUnlocked cfg)

/-- First-occurrence-order list of the distinct addresses of the selected
rows: the keys of the `address_payout_amounts` dict built at lines 145-149
(dict iteration is modelled as insertion order). -/
def addrListAux (acc : List String) : List Payout → List String
  | [] => acc
  | p :: ps => addrListAux (if p.address ∈ acc then acc else acc ++ [p.address]) ps

def addrList (ps : List Payout) : List String :=
  addrListAux [] ps

/-- Per-address aggregate: `address_payout_amounts[address]` after the
summation loop (line 147). -/
def agg (ps : List Payout) (a : String) : ℚ :=
  ((ps.filter (fun p => p.address == a)).map Payout.amount).sum

/-- Python 2 `round(x, 8)`: rounding to 8 fractional digits, ties away from
zero (the source rounds a binary float; the embedding rounds the exact
rational). -/
def pyRound (x : ℚ) : ℤ :=
  if 0 ≤ x then Rat.floor (x + 1 / 2) else Rat.ceil (x - 1 / 2)

def round8 (q : ℚ) : ℚ :=
  (pyRound (q * 100000000) : ℚ) / 100000000

/-- Addresses dropped by the dust loop (lines 156-176): the rounded
aggregate is strictly below `minimum_tx_output`. -/
def dustAddrs (cfg : Config) (st : Store) : List String :=
  (addrList (sendQuery cfg st)).filter
    (fun a => round8 (agg (sendQuery cfg st) a) < cfg.minimum_tx_output)

/-- The recipient dict passed to `send_many` after the dust loop: each kept
address with its rounded aggregate (line 178). -/
def recipients (cfg : Config) (st : Store) : List (String × ℚ) :=
  (addrList (sendQuery cfg st)).filterMap
    (fun a =>
      if round8 (agg (sendQuery cfg st) a) < cfg.minimum_tx_output then none
      else some (a, round8 (agg (sendQuery cfg st) a)))

/-- `payout_addrs` (line 251): the keys of the final recipient dict. -/
def recipAddrs (cfg : Config) (st : Store) : List String :=
  (recipients cfg st).map Prod.fst

/-- `total_out = sum(address_payout_amounts.values())` (line 180). -/
def totalOut (cfg : Config) (st : Store) : ℚ :=
  ((recipients cfg st).map Prod.snd).sum

/-- Session view of one row after the locking pass (lines 153-154) and the
dust unlock pass (lines 173-176): selected dust rows get
`locked=False, lock_time=None`; other selected rows get
`locked=True, lock_time=now`; unselected rows are untouched. -/
def lockRow (cfg : Config) (st : Store) (now : Nat) (r : Payout) : Payout :=
  if unpaidUnlocked cfg r then
    if r.address ∈ dustAddrs cfg st then
      { r with locked := false, lock_time := none }
    else
      { r with locked := true, lock_time := some now }
  else r

/-- Session view after the recovery loop of the wallet-error handler
(lines 243-244): every selected row additionally gets `locked = False`
(`lock_time` is not reset there). -/
def errUnlockRow (cfg : Config) (st : Store) (now : Nat) (r : Payout) : Payout :=
  if unpaidUnlocked cfg r then { lockRow cfg st now r with locked := false }
  else r

/-- Session view after the success loop (lines 253-258): rows whose address
is in `payout_addrs` get `locked=False, txid=coin_txid, paid_time=now` on
top of the committed locked state; other rows keep their committed state. -/
def paidRow (cfg : Config) (st : Store) (now : Nat) (ctid : String) (r : Payout) : Payout :=
  if unpaidUnlocked cfg r ∧ r.address ∈ recipAddrs cfg st then
    { r with locked := false, lock_time := some now,
             txid := some ctid, paid_time := some now }
  else lockRow cfg st now r

/-- The `finalized_payouts` list returned on success (lines 252-258). -/
def finalizedRows (cfg : Config) (st : Store) (now : Nat) (ctid : String) : List Payout :=
  ((sendQuery cfg st).filter (fun r => r.address ∈ recipAddrs cfg st)).map
    (fun r => { r with locked := false, lock_time := some now,
                       txid := some ctid, paid_time := some now })

/-- In simulate mode the locked state was rolled back (line 201) before the
fake-txid success path runs, so the success loop is applied to the rows'
committed (pre-lock) values and `lock_time` is untouched. -/
def simPaidRow (cfg : Config) (st : Store) (now : Nat) (ctid : String) (r : Payout) : Payout :=
  if unpaidUnlocked cfg r ∧ r.address ∈ recipAddrs cfg st then
    { r with locked := false, txid := some ctid, paid_time := some now }
  else r

/-- The `finalized_payouts` list on the simulated fake-txid path. -/
def simFinalizedRows (cfg : Config) (st : Store) (now : Nat) (ctid : String) : List Payout :=
  ((sendQuery cfg st).filter (fun r => r.address ∈ recipAddrs cfg st)).map
    (fun r => { r with locked := false, txid := some ctid, paid_time := some now })

/-- The fake txid offered in simulation mode (line 216). -/
def fakeTxid : String :=
  "1111111111111111111111111111111111111111111111111111111111111111"

/-- Observable store events of one `send_payout` run, in program order:
the commit of the locked rows (line 199), the `send_many` wallet call
(line 226), the commit of the unlock recovery (line 246), and the commit of
the txid/paid_time writes (line 260). -/
inductive Event where
  | commitLock
  | sendMany
  | commitUnlock
  | commitTxid
deriving Repr, DecidableEq

/-- Python return value of `send_payout`. -/
inductive SendResult where
  | rpcDown
  | nothingToDo
  | outOfFunds
  | zeroTotal
  | simExit
  | walletErrorLockedKept
  | walletErrorUnlocked
  | success (coin_txid : String) (finalized : List Payout)
deriving Repr, DecidableEq

/-- Full outcome of one `send_payout` run: return value, committed store,
event trace in chronological order, the recipient dict at send time (`none`
when the run ends before it is built), and the coordinator POSTs made
(`send_payout` never calls `sc_rpc.post`, so this is always `[]`). -/
structure SendOutput where
  result : SendResult
  store : Store
  events : List Event
  recipients : Option (List (String × ℚ))
  posts : List String
deriving Repr, DecidableEq

/-- `PayoutManager.send_payout` (lines 116-263).  `answerY` is the operator's
reply to the simulate-mode `raw_input` prompt at line 218. -/
def send_payout (cfg : Config) (w : WalletEnv) (st : Store)
    (simulate answerY : Bool) (now : Nat) : SendOutput :=
  if ¬ w.pokeOk then ⟨.rpcDown, st, [], none, []⟩
  else if sendQuery cfg st = [] then ⟨.nothingToDo, st, [], none, []⟩
  else if w.balance < totalOut cfg st then ⟨.outOfFunds, st, [], some (recipients cfg st), []⟩
  else if totalOut cfg st = 0 then ⟨.zeroTotal, st, [], some (recipients cfg st), []⟩
  else if simulate then
    if answerY then
      ⟨.success fakeTxid (simFinalizedRows cfg st now fakeTxid),
        st.map (simPaidRow cfg st now fakeTxid), [.commitTxid],
        some (recipients cfg st), []⟩
    else ⟨.simExit, st, [], some (recipients cfg st), []⟩
  else
    match w.sendResult with
    | .error _ =>
      if w.balanceAfterError = w.balance then
        ⟨.walletErrorUnlocked, st.map (errUnlockRow cfg st now),
          [.commitLock, .sendMany, .commitUnlock], some (recipients cfg st), []⟩
      else
        ⟨.walletErrorLockedKept, st.map (lockRow cfg st now),
          [.commitLock, .sendMany], some (recipients cfg st), []⟩
    | .ok ctid =>
      ⟨.success ctid (finalizedRows cfg st now ctid),
        st.map (paidRow cfg st now ctid),
        [.commitLock, .sendMany, .commitTxid], some (recipients cfg st), []⟩

/-! ### associate_all / associate (payout_manager.py lines 265-330) -/

/-- Environment for `associate_all`: `get_transaction(txid).fee` (with
`none` modelling a raised `CoinRPCException`) and the coordinator's
`associate_payouts` response `result` field per txid. -/
structure AssocEnv where
  getFee : String → Option ℚ
  assocResult : String → Bool

/-- The `filter_by(associated=False, currency_code=...).filter(txid != None)`
query at lines 274-278. -/
def paidUnassoc (cfg : Config) (r : Payout) : Bool :=
  !r.associated && r.currency_code == cfg.currency_code && r.txid.isSome

/-- The distinct txids of the queried rows, in first-occurrence order:
the keys of the `txids` dict built at lines 281-284 (dict iteration is
modelled as insertion order). -/
def txidList (ps : List Payout) : List String :=
  ps.foldl
    (fun acc p =>
      match p.txid with
      | some t => if t ∈ acc then acc else acc ++ [t]
      | none => acc)
    []

/-- Outcome of one `associate_all` run: final store, coordinator POSTs, and
`some t` when the run aborted with the `KeyError` raised by the
`tx_fees[txid]` lookup at line 301 for a txid whose fee fetch failed. -/
structure AssocOutput where
  store : Store
  posts : List String
  keyError : Option String
deriving Repr, DecidableEq

/-- The `for txid, payouts in txids.iteritems()` loop (lines 297-301), each
iteration evaluating `tx_fees[txid]` and then running
`PayoutManager.associate` (lines 303-330).  A txid whose fee lookup failed
is absent from `tx_fees`, so the subscript raises `KeyError` and the whole
loop aborts; otherwise `associate` posts `associate_payouts` (unless
simulating) and on a true `result` marks that txid's unassociated rows of
the currency associated and commits. -/
def assocLoop (cfg : Config) (env : AssocEnv) (simulate : Bool) (now : Nat) :
    List String → Store → List String → AssocOutput
  | [], st, posts => ⟨st, posts, none⟩
  | t :: ts, st, posts =>
    match env.getFee t with
    | none => ⟨st, posts, some t⟩
    | some _ =>
      if simulate then assocLoop cfg env simulate now ts st posts
      else
        let posts' := posts ++ ["associate_payouts"]
        if env.assocResult t then
          assocLoop cfg env simulate now ts
            (st.map (fun r =>
              if paidUnassoc cfg r && r.txid == some t then
                { r with associated := true, assoc_time := some now }
              else r))
            posts'
        else assocLoop cfg env simulate now ts st posts'

/-- `PayoutManager.associate_all` (lines 265-301): query the paid
unassociated rows, bucket them by txid, fetch each txid's fee (failures are
skipped with a warning at lines 291-295, leaving the txid out of `tx_fees`),
then run the association loop. -/
def associate_all (cfg : Config) (env : AssocEnv) (st : Store)
    (simulate : Bool) (now : Nat) : AssocOutput :=
  assocLoop cfg env simulate now (txidList (st.filter (paidUnassoc cfg))) st []

/-! ### confirm_trans (payout_manager.py lines 332-390) -/

/-- Environment for `confirm_trans`: `poke_rpc`, the unsigned GET of
unconfirmed transactions (`success` flag and the returned txids), the
per-txid confirmation count from `get_transaction`, and the coordinator's
`confirm_transactions` response. -/
structure ConfirmEnv where
  pokeOk : Bool
  apiSuccess : Bool
  objects : List String
  confirmations : String → Nat
  postResult : Bool

/-- Python return value of `confirm_trans` (`None` is collapsed into the
dedicated early-return constructors). -/
inductive ConfirmResult where
  | rpcDown
  | apiFail
  | noObjects
  | simulated
  | noTids
  | posted (ok : Bool)
deriving Repr, DecidableEq

structure ConfirmOutput where
  store : Store
  tids : List String
  posts : List String
  result : ConfirmResult
deriving Repr, DecidableEq

/-- `PayoutManager.confirm_trans` (lines 332-390).  The per-object loop
reads `self.config['min_confirms']`; when that key is absent the subscript
raises `KeyError` (the `_set_config` default 12 is registered under
`min_tx_confirms`, which this method never reads).  A txid is collected iff
`confirmations > min_confirms`; `confirm_transactions` is POSTed only when
the collected list is non-empty and not simulating.  The local store is
never touched. -/
def confirm_trans (cfg : Config) (env : ConfirmEnv) (st : Store)
    (simulate : Bool) : Except String ConfirmOutput :=
  if ¬ env.pokeOk then .ok ⟨st, [], [], .rpcDown⟩
  else if ¬ env.apiSuccess then .ok ⟨st, [], [], .apiFail⟩
  else if env.objects = [] then .ok ⟨st, [], [], .noObjects⟩
  else
    match cfg.min_confirms with
    | none => .error "KeyError: min_confirms"
    | some mc =>
      let tids := env.objects.filter (fun t => mc < env.confirmations t)
      if simulate then .ok ⟨st, tids, [], .simulated⟩
      else if tids = [] then .ok ⟨st, tids, [], .noTids⟩
      else .ok ⟨st, tids, ["confirm_transactions"], .posted env.postResult⟩

/-! ### local_associate_locked (payout_manager.py lines 412-428) -/

/-- The `filter_by(txid=None, locked=True, id=pid)` predicate of the query
at lines 417-418. -/
def lockedById (rowId : Nat) (r : Payout) : Bool :=
  r.txid.isNone && r.locked && r.id == rowId

/-- `PayoutManager.local_associate_locked` (lines 412-428).  The query ends
in `.all()`, which returns a Python *list*; the very next statement (the
log call at lines 419-420) evaluates `payout.id` on that list, which raises
`AttributeError` unconditionally — before the simulate check, before any
mutation.  (Even if the row were reached, the method sets only `txid`,
never `locked = False`.) -/
def local_associate_locked (st : Store) (rowId : Nat) (_tx_id : String)
    (_simulate : Bool) : Except String (Store × Bool) :=
  let _payout := st.filter (lockedById rowId)
  .error "AttributeError: list object has no attribute id"

/-! ### TradeManager (trade_manager.py) -/

/-- A dynamically typed JSON scalar, as needed by the trade-request
validation (`isinstance` checks distinguish int, float and string). -/
inductive PyVal where
  | pint (n : Int)
  | pfloat (q : ℚ)
  | pstr (s : String)
deriving Repr, DecidableEq

def PyVal.isInt : PyVal → Bool
  | .pint _ => true
  | _ => false

def PyVal.isFloat : PyVal → Bool
  | .pfloat _ => true
  | _ => false

def PyVal.isStr : PyVal → Bool
  | .pstr _ => true
  | _ => false

def PyVal.asInt : PyVal → Int
  | .pint n => n
  | _ => 0

def PyVal.asQ : PyVal → ℚ
  | .pfloat q => q
  | _ => 0

def PyVal.asStr : PyVal → String
  | .pstr s => s
  | _ => ""

/-- One `(tr_id, currency, quantity, type)` tuple of a `get_trade_requests`
response. -/
abbrev TRTuple := PyVal × PyVal × PyVal × PyVal

/-- The validation of one tuple (trade_manager.py lines 70-74).  The final
check is `assert type == 'buy' or 'sell'`, which Python parses as
`(type == 'buy') or 'sell'`; the non-empty string literal is truthy, so
this assert can never fail — embedded as `|| true`. -/
def trValid (t : TRTuple) : Bool :=
  t.1.isInt && t.2.1.isStr && t.2.2.1.isFloat && t.2.2.2.isStr &&
    ((t.2.2.2.asStr == "buy") || true)

/-- `TradeManager.get_open_trade_requests` (lines 52-102).  `resp = none`
models a `ConnectionError`; a failed validation logs and returns `None`;
otherwise the tuples are split into the sell list and buy list (a tuple
whose type is neither string is silently dropped from both). -/
def get_open_trade_requests (resp : Option (List TRTuple)) :
    Option (List TRTuple × List TRTuple) :=
  match resp with
  | none => none
  | some trs =>
    if trs.all trValid then
      some (trs.filter (fun t => t.2.2.2.asStr == "sell"),
            trs.filter (fun t => t.2.2.2.asStr == "buy"))
    else none

/-- Python truthiness of an optional integer CLI argument
(`start_tr_id and ...`): `None` and `0` are falsy. -/
def truthy : Option Int → Bool
  | none => false
  | some n => n != 0

/-- The pruning predicate of the loop at trade_manager.py lines 151-161:
a sell request is kept iff its currency matches and it is inside the
optional `[start_tr_id, stop_tr_id]` range. -/
def srKeep (currency : String) (start stop : Option Int) (t : TRTuple) : Bool :=
  t.2.1.asStr == currency &&
    !(truthy start && start.getD 0 > t.1.asInt) &&
    !(truthy stop && stop.getD 0 < t.1.asInt)

inductive CloseResult where
  | aborted
  | simulated
  | posted (ok : Bool)
deriving Repr, DecidableEq

/-- `TradeManager.close_sell_requests` (lines 133-215).  Fetches the open
requests (unpacking the `None` returned on a rejected response raises
`TypeError`), prunes by currency and id range, sums the kept quantities
into `total_quant` (initialised to 0 and never guarded), and computes
`avg_price = btc_quantity / total_quant` — a zero divisor raises
`decimal.DivisionByZero`.  Then the pro-rata figures are built and, after
operator confirmation, posted unless simulating. -/
def close_sell_requests (resp : Option (List TRTuple)) (currency : String)
    (btc_quantity btc_fees : ℚ) (start stop : Option Int)
    (answerY simulate postOk : Bool) :
    Except String (CloseResult × List (Int × ℚ × ℚ)) :=
  match get_open_trade_requests resp with
  | none => .error "TypeError: cannot unpack None"
  | some (srs, _) =>
    let kept := srs.filter (srKeep currency start stop)
    let total_quant := (kept.map (fun t => t.2.2.1.asQ)).sum
    if total_quant = 0 then .error "DivisionByZero"
    else
      let completed := kept.map
        (fun t => (t.1.asInt, (t.2.2.1.asQ / total_quant) * btc_quantity,
                   (t.2.2.1.asQ / total_quant) * btc_fees))
      if ¬ answerY then .ok (.aborted, completed)
      else if ¬ simulate then .ok (.posted postOk, completed)
      else .ok (.simulated, completed)

/-! ### Concrete sample data for witnesses and counterexamples -/

/-- A Litecoin-like configuration with the spec's default dust threshold. -/
def cfgLTC : Config := ⟨"LTC", [48], 1 / 100000000, none, 12⟩

/-- Address oracle accepting every address as version 48. -/
def envV48 : PullEnv := ⟨fun _ => some 48⟩

/-- Address oracle rejecting every address (`get_bcaddress_version → None`). -/
def envVNone : PullEnv := ⟨fun _ => none⟩

/-- A PULLED row ready for payout. -/
def row1 : Payout := ⟨1, "p1", "u1", "A", 1 / 2, "LTC", none, false, false, none, none, none, some 0⟩

/-- A PULLED row whose amount is below the dust threshold. -/
def rowDust : Payout := ⟨2, "p2", "u2", "D", 1 / 1000000000, "LTC", none, false, false, none, none, none, some 0⟩

/-- A LOCKED row (txid absent, locked). -/
def rowLocked : Payout := ⟨3, "p3", "u3", "A", 1 / 2, "LTC", none, false, true, some 5, none, none, some 0⟩

/-- Two PAID unassociated rows under distinct txids. -/
def rowPaid1 : Payout := ⟨4, "p4", "u4", "A", 1 / 2, "LTC", some "t1", false, false, none, some 3, none, some 0⟩

def rowPaid2 : Payout := ⟨5, "p5", "u5", "B", 1 / 2, "LTC", some "t2", false, false, none, some 3, none, some 0⟩

/-- Healthy wallet whose `send_many` succeeds with txid `txH`. -/
def wOk : WalletEnv := ⟨true, 1, .ok "txH", 1⟩

/-- Wallet whose `send_many` raises while the balance stays unchanged. -/
def wErrSame : WalletEnv := ⟨true, 1, .error (), 1⟩

/-- Association environment where the fee lookup for `t1` raises and every
other lookup succeeds. -/
def envAssoc : AssocEnv := ⟨fun t => if t == "t1" then none else some 1, fun _ => true⟩

/-- A minimal operator configuration: only the required keys are supplied,
so every other key keeps its `_set_config` default. -/
def kwMinimal : Kwargs := ⟨"LTC", some [48], none, none, none⟩

/-- Confirm environment: one coordinator-reported unconfirmed txid with 20
wallet confirmations. -/
def envConfirm : ConfirmEnv := ⟨true, true, ["tx1"], fun _ => 20, true⟩

/-- A trade-request tuple with well-typed fields but a type string that is
neither `buy` nor `sell`. -/
def trBadType : TRTuple := (.pint 1, .pstr "LTC", .pfloat 1, .pstr "frobnicate")

/-- A trade-request tuple whose `tr_id` field has the wrong type. -/
def trWrongField : TRTuple := (.pstr "x", .pstr "LTC", .pfloat 1, .pstr "sell")

/-! ### Theorems -/

theorem send_payout_eq_rpcDown (cfg : Config) (w : WalletEnv) (st : Store)
    (sim aY : Bool) (now : Nat) (h1 : w.pokeOk = false) :
    send_payout cfg w st sim aY now = ⟨.rpcDown, st, [], none, []⟩ := by
  unfold send_payout
  rw [if_pos (by simp [h1])]

theorem send_payout_eq_nothingToDo (cfg : Config) (w : WalletEnv) (st : Store)
    (sim aY : Bool) (now : Nat) (h1 : w.pokeOk = true)
    (h2 : sendQuery cfg st = []) :
    send_payout cfg w st sim aY now = ⟨.nothingToDo, st, [], none, []⟩ := by
  unfold send_payout
  rw [if_neg (by simp [h1]), if_pos h2]

theorem send_payout_eq_outOfFunds (cfg : Config) (w : WalletEnv) (st : Store)
    (sim aY : Bool) (now : Nat) (h1 : w.pokeOk = true)
    (h2 : sendQuery cfg st ≠ []) (h3 : w.balance < totalOut cfg st) :
    send_payout cfg w st sim aY now
      = ⟨.outOfFunds, st, [], some (recipients cfg st), []⟩ := by
  unfold send_payout
  rw [if_neg (by simp [h1]), if_neg h2, if_pos h3]

theorem send_payout_eq_zeroTotal (cfg : Config) (w : WalletEnv) (st : Store)
    (sim aY : Bool) (now : Nat) (h1 : w.pokeOk = true)
    (h2 : sendQuery cfg st ≠ []) (h3 : ¬ w.balance < totalOut cfg st)
    (h4 : totalOut cfg st = 0) :
    send_payout cfg w st sim aY now
      = ⟨.zeroTotal, st, [], some (recipients cfg st), []⟩ := by
  unfold send_payout
  rw [if_neg (by simp [h1]), if_neg h2, if_neg h3, if_pos h4]

theorem send_payout_eq_simExit (cfg : Config) (w : WalletEnv) (st : Store)
    (now : Nat) (h1 : w.pokeOk = true)
    (h2 : sendQuery cfg st ≠ []) (h3 : ¬ w.balance < totalOut cfg st)
    (h4 : totalOut cfg st ≠ 0) :
    send_payout cfg w st true false now
      = ⟨.simExit, st, [], some (recipients cfg st), []⟩ := by
  unfold send_payout
  rw [if_neg (by simp [h1]), if_neg h2, if_neg h3, if_neg h4]
  rfl

theorem send_payout_eq_simSuccess (cfg : Config) (w : WalletEnv) (st : Store)
    (now : Nat) (h1 : w.pokeOk = true)
    (h2 : sendQuery cfg st ≠ []) (h3 : ¬ w.balance < totalOut cfg st)
    (h4 : totalOut cfg st ≠ 0) :
    send_payout cfg w st true true now
      = ⟨.success fakeTxid (simFinalizedRows cfg st now fakeTxid),
          st.map (simPaidRow cfg st now fakeTxid), [.commitTxid],
          some (recipients cfg st), []⟩ := by
  unfold send_payout
  rw [if_neg (by simp [h1]), if_neg h2, if_neg h3, if_neg h4]
  rfl

theorem send_payout_eq_errUnlocked (cfg : Config) (w : WalletEnv) (st : Store)
    (aY : Bool) (now : Nat) (h1 : w.pokeOk = true)
    (h2 : sendQuery cfg st ≠ []) (h3 : ¬ w.balance < totalOut cfg st)
    (h4 : totalOut cfg st ≠ 0) (e : Unit) (hw : w.sendResult = .error e)
    (h5 : w.balanceAfterError = w.balance) :
    send_payout cfg w st false aY now
      = ⟨.walletErrorUnlocked, st.map (errUnlockRow cfg st now),
          [.commitLock, .sendMany, .commitUnlock], some (recipients cfg st), []⟩ := by
  unfold send_payout
  rw [if_neg (by simp [h1]), if_neg h2, if_neg h3, if_neg h4, hw]
  simp [h5]

theorem send_payout_eq_errLockedKept (cfg : Config) (w : WalletEnv) (st : Store)
    (aY : Bool) (now : Nat) (h1 : w.pokeOk = true)
    (h2 : sendQuery cfg st ≠ []) (h3 : ¬ w.balance < totalOut cfg st)
    (h4 : totalOut cfg st ≠ 0) (e : Unit) (hw : w.sendResult = .error e)
    (h5 : w.balanceAfterError ≠ w.balance) :
    send_payout cfg w st false aY now
      = ⟨.walletErrorLockedKept, st.map (lockRow cfg st now),
          [.commitLock, .sendMany], some (recipients cfg st), []⟩ := by
  unfold send_payout
  rw [if_neg (by simp [h1]), if_neg h2, if_neg h3, if_neg h4, hw]
  simp [h5]

theorem send_payout_eq_ok (cfg : Config) (w : WalletEnv) (st : Store)
    (aY : Bool) (now : Nat) (h1 : w.pokeOk = true)
    (h2 : sendQuery cfg st ≠ []) (h3 : ¬ w.balance < totalOut cfg st)
    (h4 : totalOut cfg st ≠ 0) (ctid : String) (hw : w.sendResult = .ok ctid) :
    send_payout cfg w st false aY now
      = ⟨.success ctid (finalizedRows cfg st now ctid),
          st.map (paidRow cfg st now ctid),
          [.commitLock, .sendMany, .commitTxid], some (recipients cfg st), []⟩ := by
  unfold send_payout
  rw [if_neg (by simp [h1]), if_neg h2, if_neg h3, if_neg h4, hw]
  rfl

theorem pullLoop_simulate_store (cfg : Config) (env : PullEnv) (now : Nat) :
    ∀ (ts : List PullTuple) (s : PullSt), (pullLoop cfg env true now ts s).store = s.store := by
  intro ts
  induction ts with
  | nil => intro s; rfl
  | cons t ts ih =>
    intro s
    by_cases hv : validAddr cfg env t.address
    · by_cases hp : pidExists s.store t.pid
      · simp [pullLoop, hv, hp, ih]
      · simp [pullLoop, hv, hp, ih]
    · simp [pullLoop, hv, ih]

/-- C1: in every non-simulated run of `send_payout`, the commit of the
locked rows strictly precedes the `send_many` wallet call (whenever that
call happens the event trace starts `[commitLock, sendMany]`), and on the
success branch the commit of the txid/paid_time writes happens before the
success result is returned (the trace of a successful run is exactly
`[commitLock, sendMany, commitTxid]`, all of it prior to the return). -/
theorem send_payout_commit_ordering (cfg : Config) (w : WalletEnv) (st : Store)
    (aY : Bool) (now : Nat) :
    (Event.sendMany ∈ (send_payout cfg w st false aY now).events →
      (send_payout cfg w st false aY now).events.take 2
        = [Event.commitLock, Event.sendMany])
  ∧ (∀ ctid fin, (send_payout cfg w st false aY now).result = SendResult.success ctid fin →
      (send_payout cfg w st false aY now).events
        = [Event.commitLock, Event.sendMany, Event.commitTxid]) := by
  by_cases h1 : w.pokeOk = true
  · by_cases h2 : sendQuery cfg st = []
    · rw [send_payout_eq_nothingToDo cfg w st false aY now h1 h2]; simp
    · by_cases h3 : w.balance < totalOut cfg st
      · rw [send_payout_eq_outOfFunds cfg w st false aY now h1 h2 h3]; simp
      · by_cases h4 : totalOut cfg st = 0
        · rw [send_payout_eq_zeroTotal cfg w st false aY now h1 h2 h3 h4]; simp
        · cases hw : w.sendResult with
          | error e =>
            by_cases h5 : w.balanceAfterError = w.balance
            · rw [send_payout_eq_errUnlocked cfg w st aY now h1 h2 h3 h4 e hw h5]; simp
            · rw [send_payout_eq_errLockedKept cfg w st aY now h1 h2 h3 h4 e hw h5]; simp
          | ok c =>
            rw [send_payout_eq_ok cfg w st aY now h1 h2 h3 h4 c hw]; simp
  · rw [send_payout_eq_rpcDown cfg w st false aY now (Bool.eq_false_iff.mpr h1)]; simp

/-- C1 witness: a concrete successful non-simulated send showing the
ordering conclusions non-vacuously. -/
theorem send_payout_commit_ordering_witness :
    (send_payout cfgLTC wOk [row1] false true 0).events.take 2
      = [Event.commitLock, Event.sendMany]
  ∧ (send_payout cfgLTC wOk [row1] false true 0).events
      = [Event.commitLock, Event.sendMany, Event.commitTxid] :=
  ⟨(send_payout_commit_ordering cfgLTC wOk [row1] true 0).1 (by with_unfolding_all decide),
   (send_payout_commit_ordering cfgLTC wOk [row1] true 0).2 "txH"
     (finalizedRows cfgLTC [row1] 0 "txH") (by with_unfolding_all decide)⟩

theorem unpaidUnlocked_fields (cfg : Config) (r : Payout)
    (h : unpaidUnlocked cfg r = true) :
    r.txid = none ∧ r.locked = false ∧ r.currency_code = cfg.currency_code := by
  simp only [unpaidUnlocked, Bool.and_eq_true, Bool.not_eq_true',
    Option.isNone_iff_eq_none, beq_iff_eq] at h
  exact ⟨h.1.1, h.1.2, h.2⟩

theorem dust_not_in_recipients (cfg : Config) (st : Store) :
    ∀ a ∈ dustAddrs cfg st, ∀ q, (a, q) ∉ recipients cfg st := by
  intro a ha q hq
  rcases List.mem_filterMap.mp hq with ⟨x, _, hfx⟩
  simp only [dustAddrs, List.mem_filter, decide_eq_true_eq] at ha
  by_cases hc : round8 (agg (sendQuery cfg st) x) < cfg.minimum_tx_output
  · rw [if_pos hc] at hfx
    cases hfx
  · rw [if_neg hc] at hfx
    cases hfx
    exact hc ha.2

theorem recipAddrs_not_dust (cfg : Config) (st : Store) (a : String)
    (h : a ∈ recipAddrs cfg st) : a ∉ dustAddrs cfg st := by
  intro hd
  rcases List.mem_map.mp h with ⟨p, hp, hfst⟩
  exact dust_not_in_recipients cfg st a hd p.2 (by rw [← hfst] at hd ⊢; exact hp)

/-- C2: when `send_many` raises a wallet error during a non-simulated send
that reached the wallet call, the balance is re-read; if it is unchanged,
every selected row is unlocked and committed and the run returns the
recoverable failure (`walletErrorUnlocked`, Python `False`); if it changed,
the rows of the send's recipient set stay locked (the `LOCKED∞` state whose
only exit is operator repair) and the run returns the fatal failure
(`walletErrorLockedKept`, Python `False`).  "Selected for this send" reads
as the rows included in the attempted `send_many` (dust rows were dropped
from the send and committed back to unlocked PULLED beforehand). -/
theorem send_payout_wallet_error (cfg : Config) (w : WalletEnv) (st : Store)
    (aY : Bool) (now : Nat)
    (h1 : w.pokeOk = true) (h2 : sendQuery cfg st ≠ [])
    (h3 : ¬ w.balance < totalOut cfg st) (h4 : totalOut cfg st ≠ 0)
    (hw : w.sendResult = .error ()) :
    (w.balanceAfterError = w.balance →
        (send_payout cfg w st false aY now).result = SendResult.walletErrorUnlocked
      ∧ (send_payout cfg w st false aY now).store = st.map (errUnlockRow cfg st now)
      ∧ ∀ r ∈ st, unpaidUnlocked cfg r = true →
          errUnlockRow cfg st now r ∈ (send_payout cfg w st false aY now).store
          ∧ (errUnlockRow cfg st now r).locked = false
          ∧ (errUnlockRow cfg st now r).txid = none
          ∧ (errUnlockRow cfg st now r).pid = r.pid)
  ∧ (w.balanceAfterError ≠ w.balance →
        (send_payout cfg w st false aY now).result = SendResult.walletErrorLockedKept
      ∧ (send_payout cfg w st false aY now).store = st.map (lockRow cfg st now)
      ∧ ∀ r ∈ st, unpaidUnlocked cfg r = true → r.address ∈ recipAddrs cfg st →
          lockRow cfg st now r ∈ (send_payout cfg w st false aY now).store
          ∧ (lockRow cfg st now r).locked = true
          ∧ (lockRow cfg st now r).txid = none
          ∧ (lockRow cfg st now r).pid = r.pid) := by
  constructor
  · intro h5
    rw [send_payout_eq_errUnlocked cfg w st aY now h1 h2 h3 h4 () hw h5]
    refine ⟨rfl, rfl, ?_⟩
    intro r hr hsel
    refine ⟨List.mem_map_of_mem _ hr, ?_, ?_, ?_⟩
    · simp [errUnlockRow, hsel]
    · have ht := (unpaidUnlocked_fields cfg r hsel).1
      simp only [errUnlockRow, lockRow, hsel, if_pos]
      split_ifs <;> simpa using ht
    · simp only [errUnlockRow, lockRow, hsel, if_pos]
      split_ifs <;> rfl
  · intro h5
    rw [send_payout_eq_errLockedKept cfg w st aY now h1 h2 h3 h4 () hw h5]
    refine ⟨rfl, rfl, ?_⟩
    intro r hr hsel haddr
    have hnd : r.address ∉ dustAddrs cfg st := recipAddrs_not_dust cfg st _ haddr
    refine ⟨List.mem_map_of_mem _ hr, ?_, ?_, ?_⟩
    · simp [lockRow, hsel, hnd]
    · have ht := (unpaidUnlocked_fields cfg r hsel).1
      simp [lockRow, hsel, hnd, ht]
    · simp [lockRow, hsel, hnd]

/-- C2 witness: a concrete wallet-error run with unchanged balance. -/
theorem send_payout_wallet_error_witness :
    (wErrSame.pokeOk = true
      ∧ sendQuery cfgLTC [row1] ≠ []
      ∧ ¬ wErrSame.balance < totalOut cfgLTC [row1]
      ∧ totalOut cfgLTC [row1] ≠ 0
      ∧ wErrSame.sendResult = .error ()
      ∧ wErrSame.balanceAfterError = wErrSame.balance)
  ∧ ((send_payout cfgLTC wErrSame [row1] false true 0).result
        = SendResult.walletErrorUnlocked
    ∧ (send_payout cfgLTC wErrSame [row1] false true 0).store
        = [row1].map (errUnlockRow cfgLTC [row1] 0)
    ∧ ∀ r ∈ [row1], unpaidUnlocked cfgLTC r = true →
        errUnlockRow cfgLTC [row1] 0 r ∈ (send_payout cfgLTC wErrSame [row1] false true 0).store
        ∧ (errUnlockRow cfgLTC [row1] 0 r).locked = false
        ∧ (errUnlockRow cfgLTC [row1] 0 r).txid = none
        ∧ (errUnlockRow cfgLTC [row1] 0 r).pid = r.pid) :=
  ⟨⟨rfl, by with_unfolding_all decide, by with_unfolding_all decide,
    by with_unfolding_all decide, rfl, rfl⟩,
   (send_payout_wallet_error cfgLTC wErrSame [row1] true 0 rfl
      (by with_unfolding_all decide) (by with_unfolding_all decide)
      (by with_unfolding_all decide) rfl).1 rfl⟩

/-- C4: in every non-simulated send that reaches the wallet interaction,
each address whose aggregate, rounded to 8 fractional digits, is strictly
below `minimum_tx_output` is excluded from the recipient set passed to
`send_many`, and on success the store update writes
`txid`, `paid_time` and `locked=false` exactly to the rows whose address is
in the remaining recipient set, while the dust rows end unlocked with no
txid (the PULLED state). -/
theorem send_payout_dust_and_success (cfg : Config) (w : WalletEnv) (st : Store)
    (aY : Bool) (now : Nat)
    (h1 : w.pokeOk = true) (h2 : sendQuery cfg st ≠ [])
    (h3 : ¬ w.balance < totalOut cfg st) (h4 : totalOut cfg st ≠ 0) :
    (send_payout cfg w st false aY now).recipients = some (recipients cfg st)
  ∧ (∀ a ∈ dustAddrs cfg st, ∀ q, (a, q) ∉ recipients cfg st)
  ∧ (∀ ctid fin, (send_payout cfg w st false aY now).result = SendResult.success ctid fin →
      (send_payout cfg w st false aY now).store = st.map (paidRow cfg st now ctid)
      ∧ (∀ r ∈ st, unpaidUnlocked cfg r = true → r.address ∈ dustAddrs cfg st →
          (paidRow cfg st now ctid r).txid = none
          ∧ (paidRow cfg st now ctid r).locked = false)
      ∧ (∀ r, unpaidUnlocked cfg r = true → r.address ∈ recipAddrs cfg st →
          paidRow cfg st now ctid r
            = { r with locked := false, lock_time := some now,
                       txid := some ctid, paid_time := some now })) := by
  refine ⟨?_, dust_not_in_recipients cfg st, ?_⟩
  · cases hw : w.sendResult with
    | error e =>
      by_cases h5 : w.balanceAfterError = w.balance
      · rw [send_payout_eq_errUnlocked cfg w st aY now h1 h2 h3 h4 e hw h5]
      · rw [send_payout_eq_errLockedKept cfg w st aY now h1 h2 h3 h4 e hw h5]
    | ok c =>
      rw [send_payout_eq_ok cfg w st aY now h1 h2 h3 h4 c hw]
  · intro ctid fin hres
    cases hw : w.sendResult with
    | error e =>
      by_cases h5 : w.balanceAfterError = w.balance
      · rw [send_payout_eq_errUnlocked cfg w st aY now h1 h2 h3 h4 e hw h5] at hres
        cases hres
      · rw [send_payout_eq_errLockedKept cfg w st aY now h1 h2 h3 h4 e hw h5] at hres
        cases hres
    | ok c =>
      rw [send_payout_eq_ok cfg w st aY now h1 h2 h3 h4 c hw] at hres
      have h6 : SendResult.success c (finalizedRows cfg st now c)
          = SendResult.success ctid fin := hres
      cases h6
      rw [send_payout_eq_ok cfg w st aY now h1 h2 h3 h4 _ hw]
      refine ⟨rfl, ?_, ?_⟩
      · intro r _ hsel hdust
        have hnr : r.address ∉ recipAddrs cfg st := by
          intro hmem
          exact recipAddrs_not_dust cfg st _ hmem hdust
        have ht := (unpaidUnlocked_fields cfg r hsel).1
        constructor
        · simp [paidRow, lockRow, hsel, hnr, hdust, ht]
        · simp [paidRow, lockRow, hsel, hnr, hdust]
      · intro r hsel haddr
        simp [paidRow, hsel, haddr]

/-- C4 witness: a concrete send with one dust row and one payable row. -/
theorem send_payout_dust_and_success_witness :
    (wOk.pokeOk = true
      ∧ sendQuery cfgLTC [row1, rowDust] ≠ []
      ∧ ¬ wOk.balance < totalOut cfgLTC [row1, rowDust]
      ∧ totalOut cfgLTC [row1, rowDust] ≠ 0
      ∧ "D" ∈ dustAddrs cfgLTC [row1, rowDust])
  ∧ ((send_payout cfgLTC wOk [row1, rowDust] false true 0).recipients
        = some (recipients cfgLTC [row1, rowDust])
    ∧ (∀ a ∈ dustAddrs cfgLTC [row1, rowDust], ∀ q,
          (a, q) ∉ recipients cfgLTC [row1, rowDust])
    ∧ (∀ ctid fin,
        (send_payout cfgLTC wOk [row1, rowDust] false true 0).result
            = SendResult.success ctid fin →
        (send_payout cfgLTC wOk [row1, rowDust] false true 0).store
            = [row1, rowDust].map (paidRow cfgLTC [row1, rowDust] 0 ctid)
        ∧ (∀ r ∈ [row1, rowDust], unpaidUnlocked cfgLTC r = true →
              r.address ∈ dustAddrs cfgLTC [row1, rowDust] →
              (paidRow cfgLTC [row1, rowDust] 0 ctid r).txid = none
              ∧ (paidRow cfgLTC [row1, rowDust] 0 ctid r).locked = false)
        ∧ (∀ r, unpaidUnlocked cfgLTC r = true →
              r.address ∈ recipAddrs cfgLTC [row1, rowDust] →
              paidRow cfgLTC [row1, rowDust] 0 ctid r
                = { r with locked := false, lock_time := some 0,
                           txid := some ctid, paid_time := some 0 }))) :=
  ⟨⟨rfl, by with_unfolding_all decide, by with_unfolding_all decide,
    by with_unfolding_all decide, by with_unfolding_all decide⟩,
   send_payout_dust_and_success cfgLTC wOk [row1, rowDust] true 0 rfl
     (by with_unfolding_all decide) (by with_unfolding_all decide)
     (by with_unfolding_all decide)⟩

/-- C3 (amended): with `simulate=true`, `pull_payouts` leaves the Payout
store unchanged but still POSTs the `get_payouts` query to the coordinator
transport, and `send_payout` leaves the store unchanged whenever the
operator declines the fake-txid prompt (accepting it commits the fake txid
to the store) and never POSTs to the coordinator at all. -/
theorem simulate_frame_effects (cfg : Config) (env : PullEnv)
    (resp : Option (List PullTuple)) (st : Store) (now nid : Nat)
    (cfg2 : Config) (w : WalletEnv) (st2 : Store) (now2 : Nat) (aY : Bool) :
    (pull_payouts cfg env resp st true now nid).store = st
  ∧ (pull_payouts cfg env resp st true now nid).posts = ["get_payouts"]
  ∧ (send_payout cfg2 w st2 true false now2).store = st2
  ∧ (send_payout cfg2 w st2 true aY now2).posts = [] := by
  refine ⟨?_, ?_, ?_, ?_⟩
  · cases resp with
    | none => rfl
    | some ts =>
      by_cases h : ts = []
      · simp [pull_payouts, h]
      · simp [pull_payouts, h, pullLoop_simulate_store]
  · cases resp with
    | none => rfl
    | some ts =>
      by_cases h : ts = [] <;> simp [pull_payouts, h]
  · by_cases h1 : w.pokeOk = true
    · by_cases h2 : sendQuery cfg2 st2 = []
      · rw [send_payout_eq_nothingToDo cfg2 w st2 true false now2 h1 h2]
      · by_cases h3 : w.balance < totalOut cfg2 st2
        · rw [send_payout_eq_outOfFunds cfg2 w st2 true false now2 h1 h2 h3]
        · by_cases h4 : totalOut cfg2 st2 = 0
          · rw [send_payout_eq_zeroTotal cfg2 w st2 true false now2 h1 h2 h3 h4]
          · rw [send_payout_eq_simExit cfg2 w st2 now2 h1 h2 h3 h4]
    · rw [send_payout_eq_rpcDown cfg2 w st2 true false now2 (Bool.eq_false_iff.mpr h1)]
  · by_cases h1 : w.pokeOk = true
    · by_cases h2 : sendQuery cfg2 st2 = []
      · rw [send_payout_eq_nothingToDo cfg2 w st2 true aY now2 h1 h2]
      · by_cases h3 : w.balance < totalOut cfg2 st2
        · rw [send_payout_eq_outOfFunds cfg2 w st2 true aY now2 h1 h2 h3]
        · by_cases h4 : totalOut cfg2 st2 = 0
          · rw [send_payout_eq_zeroTotal cfg2 w st2 true aY now2 h1 h2 h3 h4]
          · cases aY
            · rw [send_payout_eq_simExit cfg2 w st2 now2 h1 h2 h3 h4]
            · rw [send_payout_eq_simSuccess cfg2 w st2 now2 h1 h2 h3 h4]
    · rw [send_payout_eq_rpcDown cfg2 w st2 true aY now2 (Bool.eq_false_iff.mpr h1)]

theorem pidExists_append (st ins : Store) (pid : String)
    (h : pidExists st pid = true) : pidExists (st ++ ins) pid = true := by
  simp only [pidExists, List.any_append, Bool.or_eq_true]
  exact Or.inl h

theorem pullLoop_inv_count (cfg : Config) (env : PullEnv) (sim : Bool) (now : Nat) :
    ∀ (ts : List PullTuple) (s : PullSt),
      (pullLoop cfg env sim now ts s).inv
        = s.inv + ts.countP (fun t => !validAddr cfg env t.address) := by
  intro ts
  induction ts with
  | nil => intro s; simp [pullLoop]
  | cons t ts ih =>
    intro s
    by_cases hv : validAddr cfg env t.address
    · by_cases hp : pidExists s.store t.pid
      · simp [pullLoop, hv, hp, ih, List.countP_cons]
      · simp [pullLoop, hv, hp, ih, List.countP_cons]
    · simp [pullLoop, hv, ih, List.countP_cons]
      omega

theorem pullLoop_counts_total (cfg : Config) (env : PullEnv) (sim : Bool) (now : Nat) :
    ∀ (ts : List PullTuple) (s : PullSt),
      (pullLoop cfg env sim now ts s).fresh + (pullLoop cfg env sim now ts s).rep
          + (pullLoop cfg env sim now ts s).inv
        = s.fresh + s.rep + s.inv + ts.length := by
  intro ts
  induction ts with
  | nil => intro s; simp [pullLoop]
  | cons t ts ih =>
    intro s
    by_cases hv : validAddr cfg env t.address
    · by_cases hp : pidExists s.store t.pid
      · simp [pullLoop, hv, hp, ih]
        omega
      · simp [pullLoop, hv, hp, ih]
        omega
    · simp [pullLoop, hv, ih]
      omega

theorem pullLoop_store_ext (cfg : Config) (env : PullEnv) (now : Nat) :
    ∀ (ts : List PullTuple) (s : PullSt),
      ∃ ins : Store, (pullLoop cfg env false now ts s).store = s.store ++ ins
        ∧ ins.length + s.fresh = (pullLoop cfg env false now ts s).fresh
        ∧ ∀ p ∈ ins, p.txid = none ∧ p.locked = false ∧ p.associated = false
            ∧ p.pull_time = some now := by
  intro ts
  induction ts with
  | nil =>
    intro s
    exact ⟨[], by simp [pullLoop], by simp [pullLoop], by simp⟩
  | cons t ts ih =>
    intro s
    by_cases hv : validAddr cfg env t.address
    · by_cases hp : pidExists s.store t.pid
      · have step : pullLoop cfg env false now (t :: ts) s
            = pullLoop cfg env false now ts { s with rep := s.rep + 1 } := by
          simp [pullLoop, hv, hp]
        obtain ⟨ins, hh1, hh2, hh3⟩ := ih { s with rep := s.rep + 1 }
        exact ⟨ins, by rw [step, hh1], by rw [step]; exact hh2, hh3⟩
      · have step : pullLoop cfg env false now (t :: ts) s
            = pullLoop cfg env false now ts
                { s with fresh := s.fresh + 1,
                         store := s.store ++ [mkPulled cfg t now s.nextId],
                         nextId := s.nextId + 1 } := by
          simp [pullLoop, hv, hp]
        obtain ⟨ins, hh1, hh2, hh3⟩ := ih
          { s with fresh := s.fresh + 1,
                   store := s.store ++ [mkPulled cfg t now s.nextId],
                   nextId := s.nextId + 1 }
        refine ⟨mkPulled cfg t now s.nextId :: ins, ?_, ?_, ?_⟩
        · rw [step, hh1]
          simp
        · rw [step]
          simp only [List.length_cons] at hh2 ⊢
          omega
        · intro p hmem
          rcases List.mem_cons.mp hmem with rfl | hmem'
          · exact ⟨rfl, rfl, rfl, rfl⟩
          · exact hh3 p hmem'
    · have step : pullLoop cfg env false now (t :: ts) s
          = pullLoop cfg env false now ts { s with inv := s.inv + 1 } := by
        simp [pullLoop, hv]
      obtain ⟨ins, hh1, hh2, hh3⟩ := ih { s with inv := s.inv + 1 }
      exact ⟨ins, by rw [step, hh1], by rw [step]; exact hh2, hh3⟩

theorem pullLoop_pid_after (cfg : Config) (env : PullEnv) (now : Nat) :
    ∀ (ts : List PullTuple) (s : PullSt) (t : PullTuple), t ∈ ts →
      validAddr cfg env t.address = true →
      pidExists (pullLoop cfg env false now ts s).store t.pid = true := by
  intro ts
  induction ts with
  | nil =>
    intro s t h
    cases h
  | cons t' ts ih =>
    intro s t hmem hv
    rcases List.mem_cons.mp hmem with rfl | hmem'
    · by_cases hp : pidExists s.store t.pid
      · have step : pullLoop cfg env false now (t :: ts) s
            = pullLoop cfg env false now ts { s with rep := s.rep + 1 } := by
          simp [pullLoop, hv, hp]
        rw [step]
        obtain ⟨ins, hh1, -, -⟩ :=
          pullLoop_store_ext cfg env now ts { s with rep := s.rep + 1 }
        rw [hh1]
        exact pidExists_append _ _ _ hp
      · have step : pullLoop cfg env false now (t :: ts) s
            = pullLoop cfg env false now ts
                { s with fresh := s.fresh + 1,
                         store := s.store ++ [mkPulled cfg t now s.nextId],
                         nextId := s.nextId + 1 } := by
          simp [pullLoop, hv, hp]
        rw [step]
        obtain ⟨ins, hh1, -, -⟩ := pullLoop_store_ext cfg env now ts
          { s with fresh := s.fresh + 1,
                   store := s.store ++ [mkPulled cfg t now s.nextId],
                   nextId := s.nextId + 1 }
        rw [hh1]
        apply pidExists_append
        simp [pidExists, List.any_append, mkPulled]
    · by_cases hv' : validAddr cfg env t'.address
      · by_cases hp : pidExists s.store t'.pid
        · rw [show pullLoop cfg env false now (t' :: ts) s
              = pullLoop cfg env false now ts { s with rep := s.rep + 1 } from by
            simp [pullLoop, hv', hp]]
          exact ih _ t hmem' hv
        · rw [show pullLoop cfg env false now (t' :: ts) s
              = pullLoop cfg env false now ts
                  { s with fresh := s.fresh + 1,
                           store := s.store ++ [mkPulled cfg t' now s.nextId],
                           nextId := s.nextId + 1 } from by
            simp [pullLoop, hv', hp]]
          exact ih _ t hmem' hv
      · rw [show pullLoop cfg env false now (t' :: ts) s
            = pullLoop cfg env false now ts { s with inv := s.inv + 1 } from by
          simp [pullLoop, hv']]
        exact ih _ t hmem' hv

theorem pullLoop_all_repeat (cfg : Config) (env : PullEnv) (now : Nat) :
    ∀ (ts : List PullTuple) (s : PullSt),
      (∀ t ∈ ts, validAddr cfg env t.address = true → pidExists s.store t.pid = true) →
      (pullLoop cfg env false now ts s).store = s.store
      ∧ (pullLoop cfg env false now ts s).fresh = s.fresh
      ∧ (pullLoop cfg env false now ts s).rep
          = s.rep + ts.countP (fun t => validAddr cfg env t.address)
      ∧ (pullLoop cfg env false now ts s).inv
          = s.inv + ts.countP (fun t => !validAddr cfg env t.address) := by
  intro ts
  induction ts with
  | nil => intro s _; simp [pullLoop]
  | cons t ts ih =>
    intro s h
    by_cases hv : validAddr cfg env t.address
    · have hp : pidExists s.store t.pid = true := h t (List.mem_cons_self t ts) hv
      have step : pullLoop cfg env false now (t :: ts) s
          = pullLoop cfg env false now ts { s with rep := s.rep + 1 } := by
        simp [pullLoop, hv, hp]
      obtain ⟨hh1, hh2, hh3, hh4⟩ := ih { s with rep := s.rep + 1 }
        (fun t' ht' hv' => h t' (List.mem_cons_of_mem t ht') hv')
      rw [step]
      refine ⟨hh1, hh2, ?_, ?_⟩
      · rw [hh3]
        simp [List.countP_cons, hv]
        omega
      · rw [hh4]
        simp [List.countP_cons, hv]
    · have step : pullLoop cfg env false now (t :: ts) s
          = pullLoop cfg env false now ts { s with inv := s.inv + 1 } := by
        simp [pullLoop, hv]
      obtain ⟨hh1, hh2, hh3, hh4⟩ := ih { s with inv := s.inv + 1 }
        (fun t' ht' hv' => h t' (List.mem_cons_of_mem t ht') hv')
      rw [step]
      refine ⟨hh1, hh2, ?_, ?_⟩
      · rw [hh3]
        simp [List.countP_cons, hv]
      · rw [hh4]
        simp [List.countP_cons, hv]
        omega

/-- C5 (amended): each tuple of a processed `get_payouts` response is
classified exactly one way — counted `invalid` when the address fails the
version check, counted `repeat` when a row with its pid already exists,
otherwise inserted as a PULLED row (txid absent, unlocked, `pull_time` set)
and counted `new` — and running pull a second time with the same response
inserts zero rows, counting every tuple that passes the version check as a
repeat and every other tuple as invalid again (not, as stated, every tuple
as a repeat). -/
theorem pull_payouts_classification (cfg : Config) (env : PullEnv)
    (ts : List PullTuple) (st : Store) (now now2 nid nid2 : Nat) :
    (pull_payouts cfg env (some ts) st false now nid).inv
        = ts.countP (fun t => !validAddr cfg env t.address)
  ∧ (pull_payouts cfg env (some ts) st false now nid).fresh
        + (pull_payouts cfg env (some ts) st false now nid).rep
        + (pull_payouts cfg env (some ts) st false now nid).inv
      = ts.length
  ∧ (∃ ins : Store,
      (pull_payouts cfg env (some ts) st false now nid).store = st ++ ins
      ∧ ins.length = (pull_payouts cfg env (some ts) st false now nid).fresh
      ∧ ∀ p ∈ ins, p.txid = none ∧ p.locked = false ∧ p.associated = false
          ∧ p.pull_time = some now)
  ∧ (pull_payouts cfg env (some ts)
        (pull_payouts cfg env (some ts) st false now nid).store false now2 nid2).store
      = (pull_payouts cfg env (some ts) st false now nid).store
  ∧ (pull_payouts cfg env (some ts)
        (pull_payouts cfg env (some ts) st false now nid).store false now2 nid2).fresh
      = 0
  ∧ (pull_payouts cfg env (some ts)
        (pull_payouts cfg env (some ts) st false now nid).store false now2 nid2).rep
      = ts.countP (fun t => validAddr cfg env t.address)
  ∧ (pull_payouts cfg env (some ts)
        (pull_payouts cfg env (some ts) st false now nid).store false now2 nid2).inv
      = ts.countP (fun t => !validAddr cfg env t.address) := by
  by_cases hts : ts = []
  · subst hts
    simp [pull_payouts]
  · have hpids : ∀ t ∈ ts, validAddr cfg env t.address = true →
        pidExists (pull_payouts cfg env (some ts) st false now nid).store t.pid = true := by
      intro t ht hv
      simp only [pull_payouts, if_neg hts]
      exact pullLoop_pid_after cfg env now ts ⟨st, nid, 0, 0, 0⟩ t ht hv
    obtain ⟨hr1, hr2, hr3, hr4⟩ := pullLoop_all_repeat cfg env now2 ts
      ⟨(pull_payouts cfg env (some ts) st false now nid).store, nid2, 0, 0, 0⟩ hpids
    refine ⟨?_, ?_, ?_, ?_, ?_, ?_, ?_⟩
    · simp only [pull_payouts, if_neg hts]
      simpa using pullLoop_inv_count cfg env false now ts ⟨st, nid, 0, 0, 0⟩
    · simp only [pull_payouts, if_neg hts]
      simpa using pullLoop_counts_total cfg env false now ts ⟨st, nid, 0, 0, 0⟩
    · simp only [pull_payouts, if_neg hts]
      obtain ⟨ins, hh1, hh2, hh3⟩ := pullLoop_store_ext cfg env now ts ⟨st, nid, 0, 0, 0⟩
      exact ⟨ins, hh1, by simpa using hh2, hh3⟩
    · simp only [pull_payouts, if_neg hts] at hr1 ⊢
      exact hr1
    · simp only [pull_payouts, if_neg hts] at hr2 ⊢
      exact hr2
    · simp only [pull_payouts, if_neg hts] at hr3 ⊢
      simpa using hr3
    · simp only [pull_payouts, if_neg hts] at hr4 ⊢
      simpa using hr4

/-- C5 counterexample: a response with a single invalid-address tuple — a
second pull with the same response counts it invalid again, not as a
repeat (the claim requires every tuple to be counted repeat). -/
theorem pull_second_run_not_all_repeat :
    (pull_payouts cfgLTC envVNone (some [⟨"u", "bad", 1, "p1"⟩])
        (pull_payouts cfgLTC envVNone (some [⟨"u", "bad", 1, "p1"⟩]) [] false 0 0).store
        false 1 1).rep = 0
  ∧ (pull_payouts cfgLTC envVNone (some [⟨"u", "bad", 1, "p1"⟩])
        (pull_payouts cfgLTC envVNone (some [⟨"u", "bad", 1, "p1"⟩]) [] false 0 0).store
        false 1 1).inv = 1
  ∧ [(⟨"u", "bad", 1, "p1"⟩ : PullTuple)].length = 1 := by
  refine ⟨?_, ?_, rfl⟩ <;> with_unfolding_all decide

/-- C3 counterexample: a `pull_payouts` run with `simulate=true` still makes
a POST to the coordinator transport (its `get_payouts` request), refuting
"no POST is made to the coordinator Transport" for simulated operations. -/
theorem pull_simulate_still_posts :
    (pull_payouts cfgLTC envV48 (some [⟨"u1", "A", 1 / 2, "p1"⟩]) [] true 0 0).posts
      = ["get_payouts"] := by
  rfl

/-- C6: evaluation at the failing input.  With two PAID buckets `t1`, `t2`
and a fee lookup that fails for `t1`, `associate_all` aborts with the
`KeyError` raised by the `tx_fees[txid]` subscript at line 301: no bucket is
posted at all (the claim requires only `t1`'s bucket to be skipped and
`t2`'s bucket to still be posted). -/
theorem associate_all_keyerror_aborts :
    associate_all cfgLTC envAssoc [rowPaid1, rowPaid2] false 7
      = ⟨[rowPaid1, rowPaid2], [], some "t1"⟩
  ∧ txidList ([rowPaid1, rowPaid2].filter (paidUnassoc cfgLTC)) = ["t1", "t2"] := by
  constructor <;> with_unfolding_all decide

/-- C7: evaluation at the failing input.  `_set_config` registers the
default 12 under the key `min_tx_confirms`, which `confirm_trans` never
reads; with an operator configuration that does not itself supply
`min_confirms`, the `self.config['min_confirms']` subscript in
`confirm_trans` raises `KeyError` as soon as an unconfirmed transaction is
processed — there is no default of 12 for `min_confirms`. -/
theorem confirm_trans_keyerror_on_default_config :
    (set_config kwMinimal).min_tx_confirms = 12
  ∧ (set_config kwMinimal).min_confirms = none
  ∧ confirm_trans (set_config kwMinimal) envConfirm [] false
      = .error "KeyError: min_confirms" := by
  refine ⟨rfl, rfl, ?_⟩
  with_unfolding_all decide

/-- C8: evaluation at the failing input.  On a store holding exactly one
LOCKED row with the requested id, `local_associate_locked` raises
`AttributeError` (the query ends in `.all()`, a list, and the next
statement reads `payout.id`); it neither writes the txid nor clears the
locked flag. -/
theorem local_associate_locked_raises :
    local_associate_locked [rowLocked] 3 "txZ" false
      = .error "AttributeError: list object has no attribute id"
  ∧ lockedById 3 rowLocked = true := by
  exact ⟨rfl, rfl⟩

/-- C9: evaluation at the failing input.  A tuple whose type string is
`frobnicate` passes validation (the check `assert type == 'buy' or 'sell'`
is vacuously true) and the operation returns normally with the tuple in
neither the sell nor the buy list, instead of rejecting the response; a
wrong field type, in contrast, is genuinely rejected. -/
theorem trade_requests_bad_type_accepted :
    get_open_trade_requests (some [trBadType]) = some ([], [])
  ∧ trValid trBadType = true
  ∧ get_open_trade_requests (some [trWrongField]) = none := by
  refine ⟨?_, rfl, ?_⟩ <;> with_unfolding_all decide

/-- C10: `close_sell_requests` divides `btc_quantity` by the sum of the
quantities of the sell requests matching the currency and optional id
range; the sum starts at 0 and is never guarded, so whenever no open sell
request matches, the division is by zero and the operation raises instead
of reporting an empty result. -/
theorem close_sell_requests_empty_matching_raises (resp : Option (List TRTuple))
    (currency : String) (bq bf : ℚ) (start stop : Option Int)
    (aY sim pOk : Bool) (srs brs : List TRTuple)
    (h1 : get_open_trade_requests resp = some (srs, brs))
    (h2 : srs.filter (srKeep currency start stop) = []) :
    close_sell_requests resp currency bq bf start stop aY sim pOk
      = .error "DivisionByZero" := by
  unfold close_sell_requests
  rw [h1]
  simp [h2]

/-- C10 witness: a coordinator response with no open trade requests at
all — the matching set is empty and the run raises the division error. -/
theorem close_sell_requests_empty_matching_raises_witness :
    (get_open_trade_requests (some ([] : List TRTuple)) = some ([], [])
      ∧ ([] : List TRTuple).filter (srKeep "LTC" none none) = [])
  ∧ close_sell_requests (some []) "LTC" 1 0 none none true false true
      = .error "DivisionByZero" :=
  ⟨⟨rfl, rfl⟩,
   close_sell_requests_empty_matching_raises (some []) "LTC" 1 0 none none
     true false true [] [] rfl rfl⟩

end SCRPC
